import Mathlib

/-!
Shallow embedding of the xilma request/configuration orchestration layer.

Each definition mirrors one Python function or class of the repository
(src/xilma/...).  Python strings are modelled by Lean `String`; machine
floats that only arise from decimal numerals and multiplications by powers
of two are modelled exactly by `ℚ`; `None`-able values by `Option`;
functions that raise by `Except`.  String helpers (`strip`, `lower`,
`isdigit`, `isalnum`) are modelled with ASCII semantics, which agrees with
Python on ASCII input (all concrete inputs used below are ASCII).
-/

namespace Xilma

/-- Decidable equality for `Except` results (used to evaluate concrete
runs of the embedded functions). -/
instance {ε α : Type _} [DecidableEq ε] [DecidableEq α] : DecidableEq (Except ε α) := fun a b =>
  match a, b with
  | .error x, .error y => if h : x = y then isTrue (by rw [h]) else isFalse (by simp [h])
  | .ok x, .ok y => if h : x = y then isTrue (by rw [h]) else isFalse (by simp [h])
  | .error _, .ok _ => isFalse (by simp)
  | .ok _, .error _ => isFalse (by simp)

/-! ### Python string primitives -/

/-- ASCII whitespace, as recognised by Python `str.strip()` on ASCII text
(space, tab, newline, carriage return, vertical tab, form feed). -/
def pyWs (c : Char) : Bool :=
  c = ' ' || c = '\t' || c = '\n' || c = '\r' || c = Char.ofNat 11 || c = Char.ofNat 12

/-- List-level model of Python `str.strip()`. -/
def pyStripList (cs : List Char) : List Char :=
  ((cs.dropWhile pyWs).reverse.dropWhile pyWs).reverse

/-- Model of Python `str.strip()` (ASCII whitespace). -/
def pyStrip (s : String) : String :=
  String.mk (pyStripList s.toList)

/-- Model of Python `str.isdigit()` for ASCII strings: non-empty and all
characters are decimal digits. -/
def pyIsDigitStr (s : String) : Bool :=
  !s.isEmpty && s.toList.all Char.isDigit

/-- Model of Python `str.isalnum()` for ASCII strings: non-empty and all
characters are ASCII letters or digits. -/
def pyIsAlnumStr (s : String) : Bool :=
  !s.isEmpty && s.toList.all Char.isAlphanum

/-- Numeric value of an ASCII decimal digit string (Python `int(value)`
after the validator has checked `[0-9]+`). -/
def digitsToNat (s : String) : Nat :=
  s.toList.foldl (fun a c => a * 10 + (c.toNat - 48)) 0

/-- Model of Python `str.lower()` (ASCII case mapping). -/
def pyLower (s : String) : String :=
  String.mk (s.toList.map Char.toLower)

/-- Model of Python `str.upper()` (ASCII case mapping). -/
def pyUpper (s : String) : String :=
  String.mk (s.toList.map Char.toUpper)

/-- Is the first list an initial segment of the second? -/
def startsWithList : List Char → List Char → Bool
  | [], _ => true
  | _ :: _, [] => false
  | p :: ps, c :: cs => p == c && startsWithList ps cs

/-- Model of Python `str.startswith(lit)`. -/
def pyStartsWith (s lit : String) : Bool :=
  startsWithList lit.toList s.toList

/-- Split a character list on a separator character. -/
def splitChar (sep : Char) (cs : List Char) : List (List Char) :=
  cs.foldr
    (fun c acc =>
      match acc with
      | [] => [[c]]
      | g :: gs => if c = sep then [] :: g :: gs else (c :: g) :: gs)
    [[]]

/-- Model of Python `str.split(sep)` for a one-character separator. -/
def pySplitChar (sep : Char) (s : String) : List String :=
  (splitChar sep s.toList).map String.mk

/-- Model of Python `username.replace("_", "")`: removing every
underscore. -/
def removeUnderscores (s : String) : String :=
  String.mk (s.toList.filter (fun c => !(c == '_')))

/-! ### src/xilma/services/sponsor.py : normalize_channel -/

/-- Mirror of the `SponsorChannel` dataclass (`chat_id` is always the
`@username` string on the success path of `normalize_channel`). -/
structure SponsorChannel where
  raw : String
  chat_id : String
  label : String
  url : String
deriving Repr, DecidableEq

/-- Mirror of `_clean_channel`. -/
def _clean_channel (raw : String) : String :=
  pyStrip raw

/-- Drop every leading `-` (Python `username.lstrip("-")`). -/
def lstripDash (s : String) : String :=
  String.mk (s.toList.dropWhile (· = '-'))

/-- Mirror of `normalize_channel` in src/xilma/services/sponsor.py.
`cleaned.split("t.me/", 1)[1]` under a `startswith` guard equals dropping
the guarded literal, because the first occurrence of `"t.me/"` in a string
starting with `https://t.me/` (resp. `http://t.me/`, `t.me/`) ends exactly
at index 13 (resp. 12, 5). -/
def normalize_channel (raw : String) : Except String SponsorChannel :=
  let cleaned := _clean_channel raw
  if cleaned.isEmpty then .error "empty" else
  let c1 :=
    if pyStartsWith cleaned "https://t.me/" then cleaned.drop 13
    else if pyStartsWith cleaned "http://t.me/" then cleaned.drop 12
    else cleaned
  let c2 := if pyStartsWith c1 "t.me/" then c1.drop 5 else c1
  if pyStartsWith c2 "+" || pyStartsWith c2 "joinchat/" then
    .error "invite links are not supported for membership checks"
  else
  let username := if pyStartsWith c2 "@" then c2.drop 1 else c2
  if pyIsDigitStr (lstripDash username) then
    .error "numeric channel ids are not supported"
  else if !(pyIsAlnumStr (removeUnderscores username)) then
    .error "invalid username"
  else
    let label := "@" ++ username
    let url := "https://t.me/" ++ username
    .ok { raw := label, chat_id := label, label := label, url := url }

/-- Written from the spec sentence of claim C5 only (not from the source):
"the remaining username must match `[A-Za-z0-9_]+`". -/
def specUsernameOk (username : String) : Bool :=
  !username.isEmpty && username.toList.all (fun c => c.isAlphanum || c = '_')

/-! ### src/xilma/services/sponsor.py : SponsorService.is_member -/

/-- Outcome of one `bot.get_chat_member` call: either a status string or a
`TelegramError` (transport error). -/
inductive MemberLookup where
  | status (s : String)
  | err (msg : String)
deriving Repr, DecidableEq

/-- Mirror of `SponsorService.is_member`, with the transport's
`get_chat_member` supplied as a deterministic oracle from the channel's
`chat_id`.  Returns the boolean answer together with the trace of queried
`chat_id`s, so theorems can count lookups (the source performs exactly one
lookup per channel, with no retry). -/
def is_member (lookup : String → MemberLookup) : List SponsorChannel → Bool × List String
  | [] => (true, [])
  | c :: rest =>
    match lookup c.chat_id with
    | .err _ => (false, [c.chat_id])
    | .status s =>
      if s = "member" || s = "administrator" || s = "creator" then
        let r := is_member lookup rest
        (r.1, c.chat_id :: r.2)
      else
        (false, [c.chat_id])

/-! ### src/xilma/config.py : data model -/

/-- Error codes of `ConfigValidationError`, one per `texts.VALIDATION_*`
constant raised in config.py. -/
inductive ConfigError where
  | invalidKey
  | tooShort
  | tooLong
  | invalidFormat
  | digitsOnly
  | floatOnly
  | tooLow
  | tooHigh
  | enumError (allowed : List String)
  | boolError
  | sponsorInvalid
deriving Repr, DecidableEq

/-- Mirror of the frozen `Config` dataclass.  Floats hold only values
parsed from `[0-9]+(\.[0-9]+)?` numerals, modelled exactly by `ℚ`. -/
structure Config where
  telegram_bot_token : String
  admin_user_id : Nat
  sponsor_channels : List String
  api_key : Option String
  base_url : String
  default_model : String
  allowed_models : List String
  max_retries : Nat
  retry_backoff : ℚ
  temperature : Option ℚ
  max_tokens : Option Nat
  top_p : Option ℚ
  max_history_messages : Nat
  log_level : String
  log_format : String
  log_anonymize_user_ids : Bool
  log_message_body : Bool
  log_message_headers : Bool
deriving Repr, DecidableEq

/-- Mirror of the frozen `SettingSpec` dataclass. -/
structure SettingSpec where
  key : String
  attr : String
  label : String
  kind : String
  min_value : Option ℚ := none
  max_value : Option ℚ := none
  min_len : Option Nat := none
  max_len : Option Nat := none
  regex : Option String := none
  allowed : List String := []
  optional : Bool := false
  secret : Bool := false
deriving Repr, DecidableEq

/-- Mirror of `SETTINGS_SPECS` (same order, same constraints; the regex
patterns are kept as the source's literals and interpreted by
`regexFullmatch` below). -/
def SETTINGS_SPECS : List SettingSpec := [
  { key := "SPONSOR_CHANNELS", attr := "sponsor_channels",
    label := "📣 Sponsor Channels", kind := "channels", optional := true },
  { key := "API_KEY", attr := "api_key", label := "🔑 API Key",
    kind := "string", min_len := some 10, max_len := some 200,
    regex := some "^\\S+$", optional := true, secret := true },
  { key := "BASE_URL", attr := "base_url", label := "🌐 Base URL",
    kind := "string", min_len := some 10, max_len := some 200,
    regex := some "^https?://\\S+$" },
  { key := "DEFAULT_MODEL", attr := "default_model", label := "🧠 Default Model",
    kind := "string", min_len := some 2, max_len := some 80,
    regex := some "^[A-Za-z0-9._:/-]+$" },
  { key := "ALLOWED_MODELS", attr := "allowed_models", label := "🧩 Allowed Models",
    kind := "models", optional := true },
  { key := "MAX_RETRIES", attr := "max_retries", label := "🔁 Max Retries",
    kind := "int", min_value := some 0, max_value := some 5 },
  { key := "RETRY_BACKOFF", attr := "retry_backoff", label := "⏱️ Retry Backoff",
    kind := "float", min_value := some 0, max_value := some 10 },
  { key := "TEMPERATURE", attr := "temperature", label := "🌡️ Temperature",
    kind := "float", min_value := some 0, max_value := some 2, optional := true },
  { key := "MAX_TOKENS", attr := "max_tokens", label := "🧮 Max Tokens",
    kind := "int", min_value := some 1, max_value := some 8192, optional := true },
  { key := "TOP_P", attr := "top_p", label := "🎛️ Top P",
    kind := "float", min_value := some 0, max_value := some 1, optional := true },
  { key := "MAX_HISTORY_MESSAGES", attr := "max_history_messages",
    label := "🗂️ Max History", kind := "int", min_value := some 0, max_value := some 50 },
  { key := "LOG_LEVEL", attr := "log_level", label := "📈 Log Level",
    kind := "enum", allowed := ["DEBUG", "INFO", "WARNING", "ERROR"] },
  { key := "LOG_FORMAT", attr := "log_format", label := "🧾 Log Format",
    kind := "enum", allowed := ["text", "json", "both"] },
  { key := "LOG_ANONYMIZE_USER_IDS", attr := "log_anonymize_user_ids",
    label := "🕶️ Anonymize User IDs", kind := "bool" },
  { key := "LOG_MESSAGE_BODY", attr := "log_message_body",
    label := "📝 Log Message Body", kind := "bool" },
  { key := "LOG_MESSAGE_HEADERS", attr := "log_message_headers",
    label := "🧷 Log Message Headers", kind := "bool" }]

/-- Mirror of `SPEC_BY_KEY[key]` (keys in `SETTINGS_SPECS` are distinct, so
first-match lookup equals dict lookup). -/
def findSpec (key : String) : Option SettingSpec :=
  SETTINGS_SPECS.find? (fun s => s.key = key)

/-! ### src/xilma/config.py : validators -/

/-- Interpreter for the three regex literals used by `SETTINGS_SPECS`,
specialised pattern by pattern (Python `re.fullmatch`): `\S` is a
non-whitespace character, `https?` an alternation on the prefix. -/
def regexFullmatch (pattern value : String) : Bool :=
  if pattern = "^\\S+$" then
    !value.isEmpty && value.toList.all (fun c => !pyWs c)
  else if pattern = "^https?://\\S+$" then
    ((pyStartsWith value "http://" && 7 < value.length)
      || (pyStartsWith value "https://" && 8 < value.length))
    && value.toList.all (fun c => !pyWs c)
  else if pattern = "^[A-Za-z0-9._:/-]+$" then
    !value.isEmpty
    && value.toList.all (fun c =>
        c.isAlphanum || c = '.' || c = '_' || c = ':' || c = '/' || c = '-')
  else
    false

/-- Mirror of `_parse_optional` (note: returns the original, unstripped
string when it is not a clear-sentinel). -/
def _parse_optional (raw : String) : Option String :=
  let lowered := pyLower (pyStrip raw)
  if lowered = "" || lowered = "none" || lowered = "null"
      || lowered = "unset" || lowered = "-" then
    none
  else
    some raw

/-- Mirror of `_validate_string` (`spec.min_len is not None and len(value)
< spec.min_len` and its three siblings become `Option.elim` checks). -/
def _validate_string (spec : SettingSpec) (raw : String) : Except ConfigError (Option String) :=
  let value? := if spec.optional then _parse_optional raw else some (pyStrip raw)
  match value? with
  | none => .ok none
  | some value =>
    if spec.min_len.elim false (fun m => decide (value.length < m)) then
      .error .tooShort
    else if spec.max_len.elim false (fun m => decide (m < value.length)) then
      .error .tooLong
    else if spec.regex.elim false (fun p => !regexFullmatch p value) then
      .error .invalidFormat
    else
      .ok (some value)

/-- Mirror of `_validate_int`. -/
def _validate_int (spec : SettingSpec) (raw : String) : Except ConfigError (Option Nat) :=
  let value? := if spec.optional then _parse_optional raw else some (pyStrip raw)
  match value? with
  | none => .ok none
  | some value =>
    if !(pyIsDigitStr value) then .error .digitsOnly
    else
      let number : Nat := digitsToNat value
      if spec.min_value.elim false (fun m => decide ((number : ℚ) < m)) then
        .error .tooLow
      else if spec.max_value.elim false (fun m => decide (m < (number : ℚ))) then
        .error .tooHigh
      else
        .ok (some number)

/-- Does `value` match `[0-9]+(\.[0-9]+)?` (the `_validate_float` numeral
pattern)? -/
def floatNumeralOk (value : String) : Bool :=
  match pySplitChar '.' value with
  | [a] => pyIsDigitStr a
  | [a, b] => pyIsDigitStr a && pyIsDigitStr b
  | _ => false

/-- Exact rational value of a `[0-9]+(\.[0-9]+)?` numeral (Python
`float(value)`; the decimal value is modelled exactly). -/
def floatNumeralVal (value : String) : ℚ :=
  match pySplitChar '.' value with
  | [a] => (digitsToNat a : ℚ)
  | [a, b] => (digitsToNat a : ℚ) + (digitsToNat b : ℚ) / ((10 : ℚ) ^ b.length)
  | _ => 0

/-- Mirror of `_validate_float`. -/
def _validate_float (spec : SettingSpec) (raw : String) : Except ConfigError (Option ℚ) :=
  let value? := if spec.optional then _parse_optional raw else some (pyStrip raw)
  match value? with
  | none => .ok none
  | some value =>
    if !(floatNumeralOk value) then .error .floatOnly
    else
      let number : ℚ := floatNumeralVal value
      if spec.min_value.elim false (fun m => decide (number < m)) then
        .error .tooLow
      else if spec.max_value.elim false (fun m => decide (m < number)) then
        .error .tooHigh
      else
        .ok (some number)

/-- Mirror of `_validate_enum` (Python `if spec.allowed:` is true exactly
when the list is non-empty). -/
def _validate_enum (spec : SettingSpec) (raw : String) : Except ConfigError String :=
  let value := pyStrip raw
  if spec.allowed.isEmpty then .ok value
  else if value ∈ spec.allowed then .ok value
  else if pyLower value ∈ spec.allowed then .ok (pyLower value)
  else if pyUpper value ∈ spec.allowed then .ok (pyUpper value)
  else .error (.enumError spec.allowed)

/-- Mirror of `_validate_bool` (note the source lowercases the stripped
input before comparing against the two literals). -/
def _validate_bool (raw : String) : Except ConfigError Bool :=
  let lowered := pyLower (pyStrip raw)
  if lowered = "true" then .ok true
  else if lowered = "false" then .ok false
  else .error .boolError

/-- Mirror of `_normalize_channel` in config.py (wraps the sponsor-service
normalizer, converting its error into `ConfigValidationError`). -/
def _normalize_channel (raw : String) : Except ConfigError String :=
  match normalize_channel raw with
  | .ok channel => .ok channel.label
  | .error _ => .error .sponsorInvalid

/-- The comma-split/trim/filter common to `_validate_channels` and
`_validate_models` (`[item.strip() for item in raw.split(",") if item.strip()]`). -/
def splitTrimmedItems (raw : String) : List String :=
  ((pySplitChar ',' raw).map pyStrip).filter (fun item => !item.isEmpty)

/-- Order-preserving de-duplicating accumulation loop of
`_validate_channels`. -/
def accumChannels : List String → List String → Except ConfigError (List String)
  | [], acc => .ok acc
  | item :: rest, acc =>
    match _normalize_channel item with
    | .error e => .error e
    | .ok normalized =>
      accumChannels rest (if normalized ∈ acc then acc else acc ++ [normalized])

/-- Mirror of `_validate_channels`. -/
def _validate_channels (raw : String) (optional : Bool) : Except ConfigError (List String) :=
  if optional && (_parse_optional raw).isNone then .ok []
  else accumChannels (splitTrimmedItems raw) []

/-- Order-preserving de-duplicating accumulation loop of
`_validate_models`. -/
def accumModels : List String → List String → Except ConfigError (List String)
  | [], acc => .ok acc
  | item :: rest, acc =>
    if !(regexFullmatch "^[A-Za-z0-9._:/-]+$" item) then .error .invalidFormat
    else accumModels rest (if item ∈ acc then acc else acc ++ [item])

/-- Mirror of `_validate_models` (the source's inline model-id pattern
under `re.fullmatch` equals the anchored literal used here). -/
def _validate_models (raw : String) (optional : Bool) : Except ConfigError (List String) :=
  if optional && (_parse_optional raw).isNone then .ok []
  else accumModels (splitTrimmedItems raw) []

/-! ### src/xilma/config.py : ConfigStore.update

`dataclasses.replace(self._config, **{spec.attr: value})` is modelled by
one typed setter per validator kind; each setter matches on the attribute
names that actually carry that kind in `SETTINGS_SPECS` (any other
attribute, and a `none` value for a non-optional field, cannot be produced
by `update` and leaves the record unchanged). -/

/-- Setter for the `string`-kind attributes. -/
def applyString (cfg : Config) (attr : String) (v : Option String) : Config :=
  match attr, v with
  | "api_key", v => { cfg with api_key := v }
  | "base_url", some s => { cfg with base_url := s }
  | "default_model", some s => { cfg with default_model := s }
  | _, _ => cfg

/-- Setter for the `int`-kind attributes. -/
def applyInt (cfg : Config) (attr : String) (v : Option Nat) : Config :=
  match attr, v with
  | "max_retries", some n => { cfg with max_retries := n }
  | "max_tokens", v => { cfg with max_tokens := v }
  | "max_history_messages", some n => { cfg with max_history_messages := n }
  | _, _ => cfg

/-- Setter for the `float`-kind attributes. -/
def applyFloat (cfg : Config) (attr : String) (v : Option ℚ) : Config :=
  match attr, v with
  | "retry_backoff", some q => { cfg with retry_backoff := q }
  | "temperature", v => { cfg with temperature := v }
  | "top_p", v => { cfg with top_p := v }
  | _, _ => cfg

/-- Setter for the `enum`-kind attributes. -/
def applyEnum (cfg : Config) (attr : String) (v : String) : Config :=
  match attr with
  | "log_level" => { cfg with log_level := v }
  | "log_format" => { cfg with log_format := v }
  | _ => cfg

/-- Setter for the `bool`-kind attributes. -/
def applyBool (cfg : Config) (attr : String) (v : Bool) : Config :=
  match attr with
  | "log_anonymize_user_ids" => { cfg with log_anonymize_user_ids := v }
  | "log_message_body" => { cfg with log_message_body := v }
  | "log_message_headers" => { cfg with log_message_headers := v }
  | _ => cfg

/-- Setter for the `channels`-kind attribute. -/
def applyChannels (cfg : Config) (attr : String) (v : List String) : Config :=
  match attr with
  | "sponsor_channels" => { cfg with sponsor_channels := v }
  | _ => cfg

/-- Setter for the `models`-kind attribute. -/
def applyModels (cfg : Config) (attr : String) (v : List String) : Config :=
  match attr with
  | "allowed_models" => { cfg with allowed_models := v }
  | _ => cfg

/-- Mirror of `ConfigStore.update`: look the key up in `SPEC_BY_KEY`,
dispatch on the spec's kind, validate, and only then replace the one
addressed attribute on the previous snapshot (the source assigns
`self._config` exactly once, after validation). -/
def updateStore (cfg : Config) (key raw : String) : Except ConfigError Config :=
  match findSpec key with
  | none => .error .invalidKey
  | some spec =>
    if spec.kind = "string" then
      (_validate_string spec raw).map (applyString cfg spec.attr)
    else if spec.kind = "int" then
      (_validate_int spec raw).map (applyInt cfg spec.attr)
    else if spec.kind = "float" then
      (_validate_float spec raw).map (applyFloat cfg spec.attr)
    else if spec.kind = "enum" then
      (_validate_enum spec raw).map (applyEnum cfg spec.attr)
    else if spec.kind = "bool" then
      (_validate_bool raw).map (applyBool cfg spec.attr)
    else if spec.kind = "channels" then
      (_validate_channels raw spec.optional).map (applyChannels cfg spec.attr)
    else if spec.kind = "models" then
      (_validate_models raw spec.optional).map (applyModels cfg spec.attr)
    else
      .error .invalidKey

/-! ### src/xilma/config.py : ConfigStore.snapshot -/

/-- Runtime value of a config attribute, as Python's `getattr` sees it. -/
inductive PyVal where
  | noneV
  | str (s : String)
  | nat (n : Nat)
  | rat (q : ℚ)
  | bool (b : Bool)
  | list (xs : List String)
deriving Repr, DecidableEq

/-- Model of `getattr(self._config, attr)` for the attributes named by
`SETTINGS_SPECS` (other attribute strings never occur there). -/
def getattrVal (c : Config) : String → PyVal
  | "sponsor_channels" => .list c.sponsor_channels
  | "api_key" => c.api_key.elim .noneV .str
  | "base_url" => .str c.base_url
  | "default_model" => .str c.default_model
  | "allowed_models" => .list c.allowed_models
  | "max_retries" => .nat c.max_retries
  | "retry_backoff" => .rat c.retry_backoff
  | "temperature" => c.temperature.elim .noneV .rat
  | "max_tokens" => c.max_tokens.elim .noneV .nat
  | "top_p" => c.top_p.elim .noneV .rat
  | "max_history_messages" => .nat c.max_history_messages
  | "log_level" => .str c.log_level
  | "log_format" => .str c.log_format
  | "log_anonymize_user_ids" => .bool c.log_anonymize_user_ids
  | "log_message_body" => .bool c.log_message_body
  | "log_message_headers" => .bool c.log_message_headers
  | _ => .noneV

/-- Python truthiness of a config attribute value. -/
def pyTruthy : PyVal → Bool
  | .noneV => false
  | .str s => !s.isEmpty
  | .nat n => n != 0
  | .rat q => q != 0
  | .bool b => b
  | .list xs => !xs.isEmpty

/-- Python `str(value)` for the shapes above (the masking branch only ever
applies it to secret string settings). -/
def pyStrV : PyVal → String
  | .noneV => "None"
  | .str s => s
  | .nat n => toString n
  | .rat q => toString q
  | .bool b => if b then "True" else "False"
  | .list xs => String.intercalate ", " xs

/-- The `f"{str(value)[:3]}***{str(value)[-3:]}"` masking expression. -/
def maskSecret (v : PyVal) : String :=
  let s := pyStrV v
  s.take 3 ++ "***" ++ s.takeRight 3

/-- The `", ".join(value) if value else "-"` rendering of a list-typed
value (a non-list value cannot reach this expression). -/
def renderJoin : PyVal → PyVal
  | .list xs => if xs.isEmpty then .str "-" else .str (String.intercalate ", " xs)
  | v => v

/-- State left by the `for spec in SETTINGS_SPECS:` loop of `snapshot` as
written in the source: the loop body is only `value = getattr(...)`, so
after the loop `spec` and `value` hold the last spec and its value. -/
def snapLoopState (c : Config) : Option (SettingSpec × PyVal) :=
  SETTINGS_SPECS.foldl (fun _ spec => some (spec, getattrVal c spec.attr)) none

/-- Mirror of `ConfigStore.snapshot` exactly as indented in the source:
the three `if` statements and the `data[spec.key] = value` assignment sit
after the loop (not inside it), and the assignment is nested under the
`masked and spec.secret and value` test. -/
def snapshot (c : Config) (masked : Bool) : List (String × PyVal) :=
  match snapLoopState c with
  | none => []
  | some (spec, v0) =>
    let v1 := if spec.kind = "channels" then renderJoin v0 else v0
    let v2 := if spec.kind = "models" then renderJoin v1 else v1
    if masked && spec.secret && pyTruthy v2 then
      [(spec.key, .str (maskSecret v2))]
    else
      []

/-- The configuration built from `DEFAULT_SETTINGS` (with placeholder
transport credentials), as `build_config_store` starts from. -/
def defaultConfig : Config :=
  { telegram_bot_token := "TOKEN"
    admin_user_id := 1
    sponsor_channels := []
    api_key := none
    base_url := "https://api.avalai.ir"
    default_model := "gpt-4o"
    allowed_models := []
    max_retries := 1
    retry_backoff := (1 : ℚ) / 2
    temperature := none
    max_tokens := none
    top_p := none
    max_history_messages := 12
    log_level := "INFO"
    log_format := "both"
    log_anonymize_user_ids := true
    log_message_body := true
    log_message_headers := true }

/-! ### JSON values (payloads parsed by `resp.json()` / `json.loads`) -/

/-- JSON values.  `obj` models a parsed Python dict, so its keys are
unique and `jGet` takes the first (only) match; Python numbers (`int` and
`float` from decimal literals) are both modelled by `ℚ`. -/
inductive Json where
  | null
  | bool (b : Bool)
  | num (q : ℚ)
  | str (s : String)
  | arr (items : List Json)
  | obj (fields : List (String × Json))
deriving Repr

/-!
Structural equality on JSON values: the relation Python's `==` and `in`
use on parsed payloads.  (Python additionally identifies `1`, `1.0` and
`True`, which cannot collide for the string ids used here.)
-/

mutual

/-- Structural equality on JSON values. -/
def jsonBeq : Json → Json → Bool
  | .null, .null => true
  | .bool a, .bool b => a == b
  | .num a, .num b => a == b
  | .str a, .str b => a == b
  | .arr xs, .arr ys => jsonBeqList xs ys
  | .obj fs, .obj gs => jsonBeqFields fs gs
  | _, _ => false

def jsonBeqList : List Json → List Json → Bool
  | [], [] => true
  | x :: xs, y :: ys => jsonBeq x y && jsonBeqList xs ys
  | _, _ => false

def jsonBeqFields : List (String × Json) → List (String × Json) → Bool
  | [], [] => true
  | (k1, v1) :: fs, (k2, v2) :: gs => k1 == k2 && jsonBeq v1 v2 && jsonBeqFields fs gs
  | _, _ => false

end

/-- `x in seen` over a list of JSON values. -/
def jsonMemb (x : Json) : List Json → Bool
  | [] => false
  | y :: ys => jsonBeq x y || jsonMemb x ys

/-- `dict.get(k)`: `none` for a missing key or a non-dict receiver. -/
def jGet (j : Json) (k : String) : Option Json :=
  match j with
  | .obj fields => (fields.find? (fun f => f.1 = k)).map (fun f => f.2)
  | _ => none

/-- `xs[i]` for a list value. -/
def jIndex (j : Json) (i : Nat) : Option Json :=
  match j with
  | .arr xs => xs.get? i
  | _ => none

/-- Python truthiness of a JSON value. -/
def jTruthy : Json → Bool
  | .null => false
  | .bool b => b
  | .num q => q != 0
  | .str s => !s.isEmpty
  | .arr xs => !xs.isEmpty
  | .obj fs => !fs.isEmpty

/-- Python `x or y` on two optional JSON values (a missing key is `None`,
which is falsy). -/
def jsonOr (a b : Option Json) : Option Json :=
  match a with
  | some v => if jTruthy v then some v else b
  | none => b

/-- `isinstance(value, (int, float))` plus `float(value)`: Python `bool`
is a subclass of `int`, so `True`/`False` count as numeric 1/0. -/
def pyNumQ : Json → Option ℚ
  | .num q => some q
  | .bool b => some (if b then 1 else 0)
  | _ => none

/-! ### src/xilma/ai_client.py : AIClient.generate_response -/

/-- Mirror of `APIError` (message plus optional HTTP status code). -/
structure APIErr where
  message : String
  status_code : Option Nat := none
deriving Repr, DecidableEq

/-- The `f"API error {resp.status}: {text}"` message. -/
def mkApiMsg (status : Nat) (body : String) : String :=
  "API error " ++ toString status ++ ": " ++ body

/-- What one HTTP attempt produces: a response (status plus body text plus
parsed JSON payload) or a transport-level timeout/connection error
(`asyncio.TimeoutError` / `aiohttp.ClientError`). -/
inductive AttemptOutcome where
  | response (status : Nat) (body : String) (payload : Json)
  | transportErr (msg : String)
deriving Repr

/-- An attempt outcome the retry loop retries on when attempts remain:
HTTP status 429 or 500, or a transport error. -/
def retryableOutcome : AttemptOutcome → Bool
  | .response status _ _ => decide (400 ≤ status) && (status == 429 || status == 500)
  | .transportErr _ => true

/-- Result of the `for attempt in range(self._max_retries + 1):` loop of
`generate_response`: the broken-out payload or the raised error, the
number of HTTP attempts performed, and the list of `asyncio.sleep` delays
(`retry_backoff * 2 ** attempt`). -/
structure LoopOut where
  result : Except APIErr Json
  attempts : Nat
  delays : List ℚ
deriving Repr

/-- The retry loop of `generate_response`, from iteration `attempt`
onwards, with the upstream modelled as an oracle from the attempt index.
A status `>= 400` raises `APIError` and is retried exactly when the status
is 429 or 500 and `attempt < self._max_retries`; a transport error is
retried exactly when `attempt < self._max_retries`; any other response
breaks out with the payload. -/
def genLoop (oracle : Nat → AttemptOutcome) (maxRetries : Nat) (backoff : ℚ)
    (attempt : Nat) : LoopOut :=
  match oracle attempt with
  | .response status body payload =>
    if 400 ≤ status then
      if h : ((status == 429 || status == 500) && decide (attempt < maxRetries)) = true then
        let rest := genLoop oracle maxRetries backoff (attempt + 1)
        { result := rest.result, attempts := rest.attempts + 1,
          delays := backoff * 2 ^ attempt :: rest.delays }
      else
        { result := .error { message := mkApiMsg status body, status_code := some status },
          attempts := 1, delays := [] }
    else
      { result := .ok payload, attempts := 1, delays := [] }
  | .transportErr _ =>
    if h : attempt < maxRetries then
      let rest := genLoop oracle maxRetries backoff (attempt + 1)
      { result := rest.result, attempts := rest.attempts + 1,
        delays := backoff * 2 ^ attempt :: rest.delays }
    else
      { result := .error { message := "Network error" }, attempts := 1, delays := [] }
termination_by maxRetries - attempt
decreasing_by
  · simp only [Bool.and_eq_true, decide_eq_true_eq] at h; omega
  · omega

/-- Mirror of the `AIResponse` dataclass; `content` and `model` keep the
JSON shapes the source passes through unchecked. -/
structure AIResponseV where
  content : Json
  model : Json
  usage : Option Json := none
deriving Repr

/-- The post-loop response-shape validation: `data["choices"][0]["message"]`,
then `message.get("content")`, any missing piece or a `None` content
raising the non-retried `Response format error`. -/
def extractAIResponse (data : Json) (model : String) : Except APIErr AIResponseV :=
  match ((jGet data "choices").bind (fun c => jIndex c 0)).bind (fun ch => jGet ch "message") with
  | none => .error { message := "Response format error" }
  | some message =>
    match jGet message "content" with
    | none => .error { message := "Response format error" }
    | some .null => .error { message := "Response format error" }
    | some content =>
      .ok { content := content, model := (jGet data "model").getD (.str model),
            usage := jGet data "usage" }

/-- Full result of `AIClient.generate_response`: loop then shape check. -/
structure GenResult where
  result : Except APIErr AIResponseV
  attempts : Nat
  delays : List ℚ
deriving Repr

/-- Mirror of `AIClient.generate_response` over the attempt oracle (the
constructor clamp `max(0, max_retries)` is the identity on `Nat`). -/
def generate_response (oracle : Nat → AttemptOutcome) (maxRetries : Nat) (backoff : ℚ)
    (model : String) : GenResult :=
  let out := genLoop oracle maxRetries backoff 0
  { result := out.result.bind (fun payload => extractAIResponse payload model),
    attempts := out.attempts, delays := out.delays }

/-! ### src/xilma/ai_client.py : _extract_price / _extract_models -/

/-- The `pricing` sub-object keys summed by `_extract_price`. -/
def pricingKeys : List String :=
  ["input", "output", "prompt", "completion", "input_cost", "output_cost"]

/-- The flat field-name variants tried last by `_extract_price`. -/
def flatPriceKeys : List String :=
  ["input_price", "output_price", "prompt_price", "completion_price",
   "price_input", "price_output", "price_per_token"]

/-- The numeric members of the `pricing` sub-object, in key order. -/
def pricingParts (pricing : Json) : List ℚ :=
  pricingKeys.filterMap (fun k => (jGet pricing k).bind pyNumQ)

/-- Mirror of `_extract_price`: direct `price`/`cost` (combined by Python
`or`), then the summed `pricing` sub-object, then the flat variants, else
no price. -/
def extract_price (item : Json) : Option ℚ :=
  match (jsonOr (jGet item "price") (jGet item "cost")).bind pyNumQ with
  | some q => some q
  | none =>
    let fromPricing : Option ℚ :=
      match jGet item "pricing" with
      | some pricing =>
        let parts := pricingParts pricing
        if parts.isEmpty then none else some parts.sum
      | none => none
    match fromPricing with
    | some s => some s
    | none => flatPriceKeys.findSome? (fun k => (jGet item k).bind pyNumQ)

/-- Mirror of the `ModelInfo` dataclass (`model_id` keeps the JSON shape
the source stores unchecked; in practice it is a string). -/
structure ModelInfoV where
  model_id : Json
  price : Option ℚ := none
deriving Repr

/-- The `id`/`model`/`name` truthiness chain of `_extract_models`. -/
def modelIdOf (item : Json) : Option Json :=
  jsonOr (jsonOr (jGet item "id") (jGet item "model")) (jGet item "name")

/-- Item-list selection of `_extract_models`: a dict's `data` list, else
its `models` list, else nothing; a bare list; anything else nothing. -/
def modelItems (payload : Json) : List Json :=
  match payload with
  | .obj _ =>
    match jGet payload "data" with
    | some (.arr xs) => xs
    | _ =>
      match jGet payload "models" with
      | some (.arr xs) => xs
      | _ => []
  | .arr xs => xs
  | _ => []

/-- The collection loop of `_extract_models`: bare strings become ids,
dicts go through the id chain and `_extract_price`, falsy ids and ids
already seen are dropped (first occurrence wins). -/
def collectModels : List Json → List Json → List ModelInfoV
  | [], _ => []
  | item :: rest, seen =>
    let idPrice : Option (Json × Option ℚ) :=
      match item with
      | .str s => some (.str s, none)
      | .obj _ =>
        match modelIdOf item with
        | some mid => some (mid, extract_price item)
        | none => none
      | _ => none
    match idPrice with
    | some (mid, price) =>
      if jTruthy mid && !(jsonMemb mid seen) then
        { model_id := mid, price := price } :: collectModels rest (mid :: seen)
      else
        collectModels rest seen
    | none => collectModels rest seen

/-- Sort key order for `sorted(models, key=lambda m: m.model_id)`: string
ids compare as strings (Python would raise `TypeError` on heterogeneous
id types; the model totalises those cases by constructor rank). -/
def jsonRank : Json → Nat
  | .null => 0
  | .bool _ => 1
  | .num _ => 2
  | .str _ => 3
  | .arr _ => 4
  | .obj _ => 5

/-- Lexicographic order on character lists (the order Python uses on
strings). -/
def strLeList : List Char → List Char → Bool
  | [], _ => true
  | _ :: _, [] => false
  | a :: as, b :: bs => if a = b then strLeList as bs else decide (a < b)

/-- Total order used for the sort. -/
def jsonKeyLe (a b : Json) : Bool :=
  match a, b with
  | .str x, .str y => strLeList x.toList y.toList
  | .num x, .num y => decide (x ≤ y)
  | x, y => decide (jsonRank x ≤ jsonRank y)

/-- Stable insertion step (keeps earlier equal-key entries first, as
Python's stable sort does). -/
def insertByKey (x : ModelInfoV) : List ModelInfoV → List ModelInfoV
  | [] => [x]
  | y :: ys =>
    if jsonKeyLe y.model_id x.model_id then y :: insertByKey x ys
    else x :: y :: ys

/-- Stable ascending sort by `model_id`. -/
def sortModels (ms : List ModelInfoV) : List ModelInfoV :=
  ms.foldl (fun acc x => insertByKey x acc) []

/-- Mirror of `_extract_models`. -/
def extract_models (payload : Json) : List ModelInfoV :=
  sortModels (collectModels (modelItems payload) [])

/-! ### src/xilma/llm_client.py : LLMClient.generate_response -/

/-- Mirror of `ProviderError`. -/
structure ProviderError where
  message : String
  status_code : Option Nat := none
deriving Repr, DecidableEq

/-- Mirror of the providers' `LLMResponse` dataclass (usage omitted: no
claim touches it). -/
structure LLMResponse where
  content : String
  model : String
deriving Repr, DecidableEq

/-- A registered provider, as `generate_response` uses one within a single
call: a function from the model name to the provider-level outcome (the
other arguments are fixed per call; a deterministic oracle suffices
because each provider is invoked at most once per routed request). -/
def ProviderFun : Type :=
  String → Except ProviderError LLMResponse

/-- Mirror of the `LLMClient` routing state. -/
structure LLMClientState where
  providers : List (String × ProviderFun)
  default_provider : String
  default_model : String
  fallback_provider : Option String := none
  fallback_model : Option String := none

/-- `self._providers[name]` guarded by `name in self._providers`. -/
def lookupProvider (ps : List (String × ProviderFun)) (name : String) : Option ProviderFun :=
  (ps.find? (fun p => p.1 = name)).map (fun p => p.2)

/-- Mirror of `LLMClient.generate_response`: resolve provider and model
(explicit over configured default), call the primary provider, and on a
`ProviderError` make at most one fallback call — substituting only the
unconfigured half — returning that call's outcome unguarded; re-raise the
primary error when no fallback is configured or the fallback provider is
not registered.  The second component is the trace of `(provider, model)`
calls actually made. -/
def routeGenerate (c : LLMClientState) (provider? model? : Option String) :
    Except ProviderError LLMResponse × List (String × String) :=
  let provider_name := provider?.getD c.default_provider
  let model_name := model?.getD c.default_model
  match lookupProvider c.providers provider_name with
  | none => (.error { message := "Unknown provider: " ++ provider_name }, [])
  | some primary =>
    match primary model_name with
    | .ok resp => (.ok resp, [(provider_name, model_name)])
    | .error e =>
      if c.fallback_provider.isSome || c.fallback_model.isSome then
        let fp := c.fallback_provider.getD provider_name
        let fm := c.fallback_model.getD model_name
        match lookupProvider c.providers fp with
        | some fb => (fb fm, [(provider_name, model_name), (fp, fm)])
        | none => (.error e, [(provider_name, model_name)])
      else
        (.error e, [(provider_name, model_name)])

/-! ### src/xilma/handlers/user.py : chat history handling -/

/-- One entry of the conversation history / request message list. -/
structure ChatMsg where
  role : String
  content : String
deriving Repr, DecidableEq

/-- The `messages = [system_prompt, *history, {"role": "user", "content":
update.message.text}]` construction of the chat handler. -/
def buildMessages (systemText : String) (history : List ChatMsg) (userText : String) :
    List ChatMsg :=
  { role := "system", content := systemText } :: history
    ++ [{ role := "user", content := userText }]

/-- The post-success history update of the chat handler: append the user
turn then the assistant turn, clamp `max_history_messages` at 0, clear
when the clamp is `<= 0`, else keep `history[-max_messages:]`. -/
def updateHistory (history : List ChatMsg) (userText assistantText : String)
    (maxHistoryMessages : Int) : List ChatMsg :=
  let h := history ++
    [{ role := "user", content := userText },
     { role := "assistant", content := assistantText }]
  let maxMessages := max maxHistoryMessages 0
  if maxMessages ≤ 0 then []
  else h.drop (h.length - maxMessages.toNat)

/-- The chat handler turn as it affects `context.user_data["history"]`:
build the upstream message list, call the completion client, and append
the two turns only after a successful return — any raised exception leaves
the stored history untouched (the `history.append` calls sit after the
`try` block in the source).  Returns the stored history after the turn and
the assistant content when the call succeeded. -/
def chatTurn (systemText : String) (history : List ChatMsg) (userText : String)
    (maxHistoryMessages : Int) (api : List ChatMsg → Except APIErr String) :
    List ChatMsg × Option String :=
  match api (buildMessages systemText history userText) with
  | .error _ => (history, none)
  | .ok content => (updateHistory history userText content maxHistoryMessages, some content)

/-! ## Theorems -/

/-- C1: `ConfigStore.snapshot` never returns an entry for any setting: as
indented in the source, the loop body ends after `value = getattr(...)`,
the rendering/masking `if`s run once on the final loop variables (the last
spec, LOG_MESSAGE_HEADERS, a non-secret bool), and `data[spec.key] = value`
only executes inside the masking branch — so `data` is returned empty for
every configuration, masked or not, instead of the claimed per-setting
masked mapping. -/
theorem snapshot_always_empty (c : Config) (masked : Bool) :
    snapshot c masked = [] := by
  simp [snapshot, snapLoopState, SETTINGS_SPECS]

/-- C6 counterexample: the bool validator lowercases the stripped input
before comparing, so `"True"` is accepted (the claim says any letter-case
other than the exact literals raises a ValidationError). -/
theorem validate_bool_cex :
    _validate_bool "True" = .ok true ∧ _validate_bool "FALSE" = .ok false := by
  constructor <;> rfl


/-- C6 (amended): the bool validator accepts exactly the literals
`"true"`/`"false"` case-insensitively after stripping surrounding
whitespace — any casing maps to the corresponding boolean, and every other
input raises the bool ValidationError. -/
theorem validate_bool_amended :
    (∀ raw : String, _validate_bool raw = .ok true ↔ pyLower (pyStrip raw) = "true") ∧
    (∀ raw : String, _validate_bool raw = .ok false ↔ pyLower (pyStrip raw) = "false") ∧
    (∀ raw : String, pyLower (pyStrip raw) ≠ "true" → pyLower (pyStrip raw) ≠ "false" →
      _validate_bool raw = .error .boolError) ∧
    _validate_bool "true" = .ok true ∧ _validate_bool "True" = .ok true ∧
    _validate_bool "TRUE" = .ok true ∧ _validate_bool " true " = .ok true ∧
    _validate_bool "false" = .ok false ∧ _validate_bool "False" = .ok false ∧
    _validate_bool "FALSE" = .ok false ∧ _validate_bool "yes" = .error .boolError := by
  refine ⟨?_, ?_, ?_, rfl, rfl, rfl, rfl, rfl, rfl, rfl, rfl⟩
  · intro raw
    simp only [_validate_bool]
    split_ifs with h1 h2 <;> simp_all
  · intro raw
    simp only [_validate_bool]
    split_ifs with h1 h2 <;> simp_all
  · intro raw h1 h2
    simp only [_validate_bool]
    split_ifs <;> simp_all

/-- C6 witness: the rejection component of the amended theorem applied at
the concrete input `"yes"`. -/
theorem validate_bool_amended_witness :
    _validate_bool "maybe" = .error .boolError :=
  validate_bool_amended.2.2.1 "maybe" (by decide) (by decide)

/-- C4 counterexample: one configured channel whose membership lookup
fails with a transport error on every attempt — `is_member` returns
`false`, not the claimed fail-open `true`. -/
theorem is_member_transport_cex :
    (is_member (fun _ => .err "timeout")
      [{ raw := "@foo", chat_id := "@foo", label := "@foo",
         url := "https://t.me/foo" }]).1 = false := rfl

/-- C4 (amended): on a transport error during a membership lookup,
`SponsorService.is_member` performs no retry and immediately treats the
user as not a member (fail-closed): with every earlier channel passing,
it returns `false` after querying the failing channel exactly once and
never queries the remaining channels. -/
theorem is_member_fail_closed (lookup : String → MemberLookup)
    (pre : List SponsorChannel) (c : SponsorChannel) (post : List SponsorChannel)
    (m : String)
    (hpre : ∀ p ∈ pre, ∃ s, lookup p.chat_id = .status s ∧
      (s = "member" ∨ s = "administrator" ∨ s = "creator"))
    (hc : lookup c.chat_id = .err m) :
    is_member lookup (pre ++ c :: post) =
      (false, pre.map (fun p => p.chat_id) ++ [c.chat_id]) := by
  induction pre with
  | nil => simp [is_member, hc]
  | cons p rest ih =>
    obtain ⟨s, hs, hok⟩ := hpre p (by simp)
    have hrest : ∀ q ∈ rest, ∃ s, lookup q.chat_id = .status s ∧
        (s = "member" ∨ s = "administrator" ∨ s = "creator") :=
      fun q hq => hpre q (by simp [hq])
    simp only [List.cons_append, is_member, hs]
    rcases hok with rfl | rfl | rfl <;> simp [ih hrest]

/-- C4 witness: the fail-closed theorem applied to a concrete two-channel
set whose second lookup always errors. -/
theorem is_member_fail_closed_witness :
    is_member
      (fun id => if id = "@ok" then .status "member" else .err "down")
      [{ raw := "@ok", chat_id := "@ok", label := "@ok", url := "https://t.me/ok" },
       { raw := "@bad", chat_id := "@bad", label := "@bad", url := "https://t.me/bad" }] =
      (false, ["@ok", "@bad"]) :=
  is_member_fail_closed
    (fun id => if id = "@ok" then .status "member" else .err "down")
    [{ raw := "@ok", chat_id := "@ok", label := "@ok", url := "https://t.me/ok" }]
    { raw := "@bad", chat_id := "@bad", label := "@bad", url := "https://t.me/bad" }
    [] "down"
    (by
      intro p hp
      simp only [List.mem_singleton] at hp
      subst hp
      exact ⟨"member", rfl, Or.inl rfl⟩)
    rfl

/-- C5 counterexample: the source accepts a username exactly when removing
its underscores leaves a non-empty alphanumeric string, so the
all-underscore username `"_"` — which matches the claimed pattern
`[A-Za-z0-9_]+` — is rejected. -/
theorem normalize_channel_regex_cex :
    specUsernameOk "_" = true ∧ normalize_channel "_" = .error "invalid username" := by
  constructor <;> rfl

set_option maxHeartbeats 1000000 in
/-- C5 (amended): `normalize_channel` trims, strips a leading
`https://t.me/`, `http://t.me/` or bare `t.me/`, rejects invite links and
purely numeric ids, strips a leading `@`, and accepts the remaining
username exactly when removing its underscores leaves a non-empty
alphanumeric string (for ASCII input: `[A-Za-z0-9_]+` with at least one
non-underscore); on success identity key, display label and raw are all
`@username` and the join URL is `https://t.me/username`. -/
theorem normalize_channel_amended :
    normalize_channel "https://t.me/foo" = normalize_channel "@foo" ∧
    normalize_channel "foo" = normalize_channel "@foo" ∧
    normalize_channel "@foo" =
      .ok { raw := "@foo", chat_id := "@foo", label := "@foo",
            url := "https://t.me/foo" } ∧
    normalize_channel "+AbCdEf" =
      .error "invite links are not supported for membership checks" ∧
    normalize_channel "joinchat/xyz" =
      .error "invite links are not supported for membership checks" ∧
    normalize_channel "@123" = .error "numeric channel ids are not supported" ∧
    normalize_channel "___" = .error "invalid username" ∧
    normalize_channel "a_b" =
      .ok { raw := "@a_b", chat_id := "@a_b", label := "@a_b",
            url := "https://t.me/a_b" } ∧
    (∀ raw ch, normalize_channel raw = .ok ch →
      ∃ u, ch.raw = "@" ++ u ∧ ch.chat_id = "@" ++ u ∧ ch.label = "@" ++ u ∧
        ch.url = "https://t.me/" ++ u ∧
        pyIsAlnumStr (removeUnderscores u) = true ∧
        pyIsDigitStr (lstripDash u) = false) := by
  refine ⟨by decide, by decide, by decide, by decide, by decide, by decide,
    by decide, by decide, ?_⟩
  intro raw ch h
  simp only [normalize_channel] at h
  split_ifs at h <;>
    first
    | (rw [Except.ok.injEq] at h
       subst h
       exact ⟨_, rfl, rfl, rfl, rfl, by simp_all, by simp_all⟩)
    | simp at h

/-- C5 witness: the success-shape component of the amended theorem applied
at the concrete input `"t.me/chan_1"`. -/
theorem normalize_channel_amended_witness :
    ∃ u, (SponsorChannel.mk "@chan_1" "@chan_1" "@chan_1" "https://t.me/chan_1").raw = "@" ++ u ∧
      (SponsorChannel.mk "@chan_1" "@chan_1" "@chan_1" "https://t.me/chan_1").chat_id = "@" ++ u ∧
      (SponsorChannel.mk "@chan_1" "@chan_1" "@chan_1" "https://t.me/chan_1").label = "@" ++ u ∧
      (SponsorChannel.mk "@chan_1" "@chan_1" "@chan_1" "https://t.me/chan_1").url = "https://t.me/" ++ u ∧
      pyIsAlnumStr (removeUnderscores u) = true ∧
      pyIsDigitStr (lstripDash u) = false :=
  normalize_channel_amended.2.2.2.2.2.2.2.2 "t.me/chan_1"
    (SponsorChannel.mk "@chan_1" "@chan_1" "@chan_1" "https://t.me/chan_1") rfl

/-- Case analysis of `updateHistory`: cleared when the limit is
non-positive, else the last `m` entries of the appended list. -/
theorem updateHistory_cases (history : List ChatMsg) (u a : String) (m : Int) :
    (m ≤ 0 → updateHistory history u a m = []) ∧
    (0 < m → updateHistory history u a m =
      (history ++ [ChatMsg.mk "user" u, ChatMsg.mk "assistant" a]).drop
        ((history.length + 2) - m.toNat)) := by
  constructor
  · intro hm
    simp only [updateHistory]
    rw [max_eq_right hm]
    simp
  · intro hm
    simp only [updateHistory]
    rw [max_eq_left hm.le, if_neg (by omega)]
    congr 1
    simp [List.length_append]

/-- C7: after a successful exchange the chat handler appends exactly the
user turn then the assistant turn, then trims the stored history to the
last `max_history_messages` entries in original relative order
(`max_history_messages <= 0` clears it); the stored history never contains
the system prompt, which is prepended only at call time, so the upstream
sequence is `[system] + history + [new user turn]`. -/
theorem chat_history_policy (systemText : String) (history : List ChatMsg)
    (u a : String) (m : Int)
    (hclean : ∀ msg ∈ history, msg.role ≠ "system") :
    buildMessages systemText history u =
      { role := "system", content := systemText } ::
        (history ++ [{ role := "user", content := u }]) ∧
    updateHistory history u a m <:+
      history ++ [{ role := "user", content := u },
                  { role := "assistant", content := a }] ∧
    (updateHistory history u a m).length = min (max m 0).toNat (history.length + 2) ∧
    (m ≤ 0 → updateHistory history u a m = []) ∧
    ((history.length : Int) + 2 ≤ m → updateHistory history u a m =
      history ++ [{ role := "user", content := u },
                  { role := "assistant", content := a }]) ∧
    (∀ msg ∈ updateHistory history u a m, msg.role ≠ "system") := by
  have hcase := updateHistory_cases history u a m
  refine ⟨rfl, ?_, ?_, hcase.1, ?_, ?_⟩
  · rcases le_or_lt m 0 with hm | hm
    · rw [hcase.1 hm]; exact List.nil_suffix
    · rw [hcase.2 hm]; exact List.drop_suffix _ _
  · rcases le_or_lt m 0 with hm | hm
    · rw [hcase.1 hm, max_eq_right hm]
      simp
    · rw [hcase.2 hm, max_eq_left hm.le, List.length_drop]
      simp only [List.length_append, List.length_cons, List.length_nil]
      rcases le_total m.toNat (history.length + 2) with hle | hle
      · rw [min_eq_left hle]; omega
      · rw [min_eq_right hle]; omega
  · intro hm
    have hm0 : 0 < m := by omega
    rw [hcase.2 hm0]
    have hz : history.length + 2 - m.toNat = 0 := by omega
    rw [hz, List.drop_zero]
  · intro msg hmsg
    have hsub : msg ∈ history ++ [ChatMsg.mk "user" u, ChatMsg.mk "assistant" a] := by
      rcases le_or_lt m 0 with hm | hm
      · rw [hcase.1 hm] at hmsg; cases hmsg
      · rw [hcase.2 hm] at hmsg; exact List.mem_of_mem_drop hmsg
    rcases List.mem_append.mp hsub with hh | hnew
    · exact hclean msg hh
    · have hc2 : msg = ChatMsg.mk "user" u ∨ msg = ChatMsg.mk "assistant" a := by
        simpa using hnew
      rcases hc2 with rfl | rfl
      · show ("user" : String) ≠ "system"
        decide
      · show ("assistant" : String) ≠ "system"
        decide

/-- C7 witness: the policy applied to a concrete two-entry history with
limit 4. -/
theorem chat_history_policy_witness :
    updateHistory
      [ChatMsg.mk "user" "q1", ChatMsg.mk "assistant" "r1",
       ChatMsg.mk "user" "q2", ChatMsg.mk "assistant" "r2"]
      "q3" "r3" 4 <:+
      [ChatMsg.mk "user" "q1", ChatMsg.mk "assistant" "r1",
       ChatMsg.mk "user" "q2", ChatMsg.mk "assistant" "r2"] ++
      [ChatMsg.mk "user" "q3", ChatMsg.mk "assistant" "r3"] :=
  (chat_history_policy "S"
    [ChatMsg.mk "user" "q1", ChatMsg.mk "assistant" "r1",
     ChatMsg.mk "user" "q2", ChatMsg.mk "assistant" "r2"]
    "q3" "r3" 4 (by decide)).2.1

/-- C10: if the completion call raises, the chat handler leaves the stored
conversation history exactly as it was before the turn; the user and
assistant entries are appended only after a successful return. -/
theorem chat_failure_preserves_history (systemText : String) (history : List ChatMsg)
    (u : String) (m : Int) (api : List ChatMsg → Except APIErr String) :
    (∀ e, api (buildMessages systemText history u) = .error e →
      chatTurn systemText history u m api = (history, none)) ∧
    (∀ content, api (buildMessages systemText history u) = .ok content →
      chatTurn systemText history u m api =
        (updateHistory history u content m, some content)) := by
  constructor
  · intro e he
    simp only [chatTurn, he]
  · intro content hc
    simp only [chatTurn, hc]

/-- C10 witness: the failure component applied to a client that always
raises. -/
theorem chat_failure_preserves_history_witness :
    chatTurn "S" [ChatMsg.mk "user" "hi", ChatMsg.mk "assistant" "hello"] "again" 12
      (fun _ => .error { message := "Network error" }) =
      ([ChatMsg.mk "user" "hi", ChatMsg.mk "assistant" "hello"], none) :=
  (chat_failure_preserves_history "S"
    [ChatMsg.mk "user" "hi", ChatMsg.mk "assistant" "hello"] "again" 12
    (fun _ => .error { message := "Network error" })).1
    { message := "Network error" } rfl

/-- C8: when the primary provider call fails with a provider-level error
and a fallback provider and/or fallback model is configured (and the
resolved fallback provider is registered), the router makes exactly one
fallback attempt — substituting only the unconfigured half — and that
attempt's outcome, success or failure, is returned unchanged; the call
trace always has at most two entries, so there is no further chaining. -/
theorem route_fallback_once (c : LLMClientState) (provider? model? : Option String)
    (primary : ProviderFun) (e : ProviderError) (fb : ProviderFun)
    (hp : lookupProvider c.providers (provider?.getD c.default_provider) = some primary)
    (he : primary (model?.getD c.default_model) = .error e)
    (hfb : (c.fallback_provider.isSome || c.fallback_model.isSome) = true)
    (hfp : lookupProvider c.providers
      (c.fallback_provider.getD (provider?.getD c.default_provider)) = some fb) :
    routeGenerate c provider? model? =
      (fb (c.fallback_model.getD (model?.getD c.default_model)),
       [(provider?.getD c.default_provider, model?.getD c.default_model),
        (c.fallback_provider.getD (provider?.getD c.default_provider),
         c.fallback_model.getD (model?.getD c.default_model))]) ∧
    (∀ (c2 : LLMClientState) (p2 m2 : Option String),
      (routeGenerate c2 p2 m2).2.length ≤ 2) := by
  constructor
  · simp only [routeGenerate, hp, he, hfb, hfp, if_true]
  · intro c2 p2 m2
    simp only [routeGenerate]
    split
    · simp
    · split
      · simp
      · split_ifs
        · split <;> simp
        · simp

/-- C8 witness: a primary provider that always fails routed to a
registered fallback provider; the fallback's successful response is the
router's result after exactly two calls. -/
theorem route_fallback_once_witness :
    routeGenerate
      { providers :=
          [("avalai", fun _ => .error { message := "AvalAI request failed" }),
           ("backup", fun m => .ok { content := "ok", model := m })],
        default_provider := "avalai", default_model := "gpt-4o",
        fallback_provider := some "backup", fallback_model := none }
      none none =
      (.ok { content := "ok", model := "gpt-4o" }, [("avalai", "gpt-4o"), ("backup", "gpt-4o")]) ∧
    (∀ (c2 : LLMClientState) (p2 m2 : Option String),
      (routeGenerate c2 p2 m2).2.length ≤ 2) :=
  route_fallback_once
    { providers :=
        [("avalai", fun _ => .error { message := "AvalAI request failed" }),
         ("backup", fun m => .ok { content := "ok", model := m })],
      default_provider := "avalai", default_model := "gpt-4o",
      fallback_provider := some "backup", fallback_model := none }
    none none
    (fun _ => .error { message := "AvalAI request failed" })
    { message := "AvalAI request failed" }
    (fun m => .ok { content := "ok", model := m })
    rfl rfl rfl rfl

/-- C9: `list_models` price extraction checks, in order, the direct
`price`/`cost` field, then the `pricing` sub-object (summing the numeric
members among input/output/prompt/completion/input_cost/output_cost), then
the flat `*_price` variants, yielding no price when all are absent; the
payload `{"data":[{"id":"gpt-x","pricing":{"input":1,"output":2}}]}` yields
exactly one ModelInfo with price 3.0. -/
theorem list_models_price_extraction :
    extract_models (Json.obj [("data", Json.arr [Json.obj
        [("id", Json.str "gpt-x"),
         ("pricing", Json.obj [("input", Json.num 1), ("output", Json.num 2)])]])]) =
      [{ model_id := Json.str "gpt-x", price := some 3 }] ∧
    (∀ item v q, jsonOr (jGet item "price") (jGet item "cost") = some v →
      pyNumQ v = some q → extract_price item = some q) ∧
    (∀ item pricing, (jsonOr (jGet item "price") (jGet item "cost")).bind pyNumQ = none →
      jGet item "pricing" = some pricing → pricingParts pricing ≠ [] →
      extract_price item = some (pricingParts pricing).sum) ∧
    (∀ item, (jsonOr (jGet item "price") (jGet item "cost")).bind pyNumQ = none →
      (∀ pricing, jGet item "pricing" = some pricing → pricingParts pricing = []) →
      extract_price item = flatPriceKeys.findSome? (fun k => (jGet item k).bind pyNumQ)) := by
  refine ⟨?_, ?_, ?_, ?_⟩
  · simp +decide [extract_models, modelItems, collectModels, modelIdOf, extract_price,
      jGet, jsonOr, jTruthy, pyNumQ, pricingParts, pricingKeys, flatPriceKeys,
      jsonMemb, sortModels, insertByKey, List.find?, List.filterMap, List.foldl]
    norm_num
  · intro item v q h1 h2
    simp only [extract_price, h1, Option.some_bind, h2]
  · intro item pricing h1 hp hne
    have hemp : (pricingParts pricing).isEmpty = false := by
      simpa [List.isEmpty_iff] using hne
    simp only [extract_price, h1, hp, hemp, Bool.false_eq_true, if_false]
  · intro item h1 hpr
    rcases hj : jGet item "pricing" with _ | pricing
    · simp only [extract_price, h1, hj]
    · have hemp : (pricingParts pricing).isEmpty = true := by
        simp [List.isEmpty_iff, hpr pricing hj]
      simp only [extract_price, h1, hj, hemp, if_true]

/-- C9 witness: the direct-field component of the theorem applied to a
concrete item with a numeric `price` field. -/
theorem list_models_price_extraction_witness :
    extract_price (Json.obj [("price", Json.num 5)]) = some 5 :=
  list_models_price_extraction.2.1 (Json.obj [("price", Json.num 5)])
    (Json.num 5) 5 rfl rfl

/-- Inversion of `Except.map` on a successful result. -/
theorem except_map_ok {ε α β : Type _} (f : α → β) (x : Except ε α) (b : β)
    (h : x.map f = .ok b) : ∃ a, x = .ok a ∧ b = f a := by
  cases x with
  | error e => simp [Except.map] at h
  | ok a =>
    refine ⟨a, rfl, ?_⟩
    simpa [Except.map] using h.symm

set_option maxHeartbeats 4000000 in
/-- C2: `ConfigStore.update` validates first and only then swaps the
snapshot: a successful update changes at most the one addressed setting's
attribute — every other declared setting, and the transport credentials,
read back unchanged.  (A failing update returns the raised error without
building a new snapshot at all: in the source `self._config` is assigned
exactly once, after all validation, so the embedded `updateStore` returns
`Except.error` with the previous snapshot untouched.) -/
theorem update_changes_only_target (cfg : Config) (key raw : String) (cfg2 : Config)
    (h : updateStore cfg key raw = .ok cfg2) :
    cfg2.telegram_bot_token = cfg.telegram_bot_token ∧
    cfg2.admin_user_id = cfg.admin_user_id ∧
    ∃ spec, findSpec key = some spec ∧ spec.key = key ∧
      ∀ s2 ∈ SETTINGS_SPECS, s2.attr ≠ spec.attr →
        getattrVal cfg2 s2.attr = getattrVal cfg s2.attr := by
  rcases hf : findSpec key with _ | spec
  · simp only [updateStore, hf] at h
    exact Except.noConfusion h
  · have hfind : SETTINGS_SPECS.find? (fun s => decide (s.key = key)) = some spec := by
      have hf2 := hf
      unfold findSpec at hf2
      exact hf2
    have hkey : spec.key = key := by
      have hp := List.find?_some hfind
      simpa using hp
    have hmem : spec ∈ SETTINGS_SPECS := List.mem_of_find?_eq_some hfind
    simp only [updateStore, hf] at h
    simp only [SETTINGS_SPECS, List.mem_cons, List.not_mem_nil, or_false] at hmem
    rcases hmem with rfl | rfl | rfl | rfl | rfl | rfl | rfl | rfl | rfl | rfl | rfl | rfl | rfl | rfl | rfl | rfl <;>
      (simp +decide at h
       obtain ⟨v, hv, rfl⟩ := except_map_ok _ _ _ h
       first
       | (rcases v with _ | v <;>
           exact ⟨rfl, rfl, _, rfl, hkey, by
             intro s2 hs2 hne
             fin_cases hs2 <;>
               simp_all +decide [getattrVal, applyString, applyInt, applyFloat,
                 applyEnum, applyBool, applyChannels, applyModels]⟩)
       | exact ⟨rfl, rfl, _, rfl, hkey, by
           intro s2 hs2 hne
           fin_cases hs2 <;>
             simp_all +decide [getattrVal, applyString, applyInt, applyFloat,
               applyEnum, applyBool, applyChannels, applyModels]⟩)

/-- C2 witness: the theorem applied to a concrete successful update of
LOG_LEVEL on the default configuration. -/
theorem update_changes_only_target_witness :
    ({ defaultConfig with log_level := "DEBUG" } : Config).telegram_bot_token =
        defaultConfig.telegram_bot_token ∧
    ({ defaultConfig with log_level := "DEBUG" } : Config).admin_user_id =
        defaultConfig.admin_user_id ∧
    ∃ spec, findSpec "LOG_LEVEL" = some spec ∧ spec.key = "LOG_LEVEL" ∧
      ∀ s2 ∈ SETTINGS_SPECS, s2.attr ≠ spec.attr →
        getattrVal { defaultConfig with log_level := "DEBUG" } s2.attr =
          getattrVal defaultConfig s2.attr :=
  update_changes_only_target defaultConfig "LOG_LEVEL" "debug"
    { defaultConfig with log_level := "DEBUG" } (by rfl)

/-- One step of the retry loop: a `2xx/3xx` response breaks out with the
payload after a single attempt. -/
theorem genLoop_step_ok (oracle : Nat → AttemptOutcome) (maxR : Nat) (b : ℚ)
    (attempt status : Nat) (body : String) (payload : Json)
    (ho : oracle attempt = .response status body payload) (h400 : ¬ 400 ≤ status) :
    genLoop oracle maxR b attempt = { result := .ok payload, attempts := 1, delays := [] } := by
  conv_lhs => rw [genLoop.eq_def]
  rw [ho]
  simp [h400]

/-- One step of the retry loop: an HTTP failure that is not retried raises
the status-carrying `APIError` after a single attempt. -/
theorem genLoop_step_fail (oracle : Nat → AttemptOutcome) (maxR : Nat) (b : ℚ)
    (attempt status : Nat) (body : String) (payload : Json)
    (ho : oracle attempt = .response status body payload) (h400 : 400 ≤ status)
    (hnr : ¬ (((status == 429 || status == 500) && decide (attempt < maxR)) = true)) :
    genLoop oracle maxR b attempt =
      { result := .error { message := mkApiMsg status body, status_code := some status },
        attempts := 1, delays := [] } := by
  conv_lhs => rw [genLoop.eq_def]
  rw [ho]
  simp [h400, hnr]

/-- One step of the retry loop: a retried HTTP failure sleeps
`backoff * 2 ^ attempt` and continues at the next attempt index. -/
theorem genLoop_step_retry (oracle : Nat → AttemptOutcome) (maxR : Nat) (b : ℚ)
    (attempt status : Nat) (body : String) (payload : Json)
    (ho : oracle attempt = .response status body payload) (h400 : 400 ≤ status)
    (hr : (((status == 429 || status == 500) && decide (attempt < maxR))) = true) :
    genLoop oracle maxR b attempt =
      { result := (genLoop oracle maxR b (attempt + 1)).result,
        attempts := (genLoop oracle maxR b (attempt + 1)).attempts + 1,
        delays := b * 2 ^ attempt :: (genLoop oracle maxR b (attempt + 1)).delays } := by
  conv_lhs => rw [genLoop.eq_def]
  rw [ho]
  simp [h400, hr]

/-- One step of the retry loop: a transport error with no attempts left
raises the network-kind `APIError` after a single attempt. -/
theorem genLoop_step_noconn (oracle : Nat → AttemptOutcome) (maxR : Nat) (b : ℚ)
    (attempt : Nat) (msg : String)
    (ho : oracle attempt = .transportErr msg) (hnr : ¬ attempt < maxR) :
    genLoop oracle maxR b attempt =
      { result := .error { message := "Network error" }, attempts := 1, delays := [] } := by
  conv_lhs => rw [genLoop.eq_def]
  rw [ho]
  simp [hnr]

/-- One step of the retry loop: a retried transport error sleeps
`backoff * 2 ^ attempt` and continues at the next attempt index. -/
theorem genLoop_step_reconn (oracle : Nat → AttemptOutcome) (maxR : Nat) (b : ℚ)
    (attempt : Nat) (msg : String)
    (ho : oracle attempt = .transportErr msg) (hr : attempt < maxR) :
    genLoop oracle maxR b attempt =
      { result := (genLoop oracle maxR b (attempt + 1)).result,
        attempts := (genLoop oracle maxR b (attempt + 1)).attempts + 1,
        delays := b * 2 ^ attempt :: (genLoop oracle maxR b (attempt + 1)).delays } := by
  conv_lhs => rw [genLoop.eq_def]
  rw [ho]
  simp [hr]

/-- Invariants of the retry loop from any start index `attempt ≤ maxR`:
at least one and at most `maxR + 1 - attempt` attempts; the sleep delays
are exactly `b * 2 ^ (attempt + i)` for the retried iterations; every
non-final attempt had a retryable outcome with attempts remaining; and an
early stop means the final outcome was not retryable. -/
theorem genLoop_spec (oracle : Nat → AttemptOutcome) (maxR : Nat) (b : ℚ) :
    ∀ fuel attempt, attempt ≤ maxR → maxR - attempt ≤ fuel →
      1 ≤ (genLoop oracle maxR b attempt).attempts ∧
      (genLoop oracle maxR b attempt).attempts ≤ maxR + 1 - attempt ∧
      (genLoop oracle maxR b attempt).delays =
        (List.range ((genLoop oracle maxR b attempt).attempts - 1)).map
          (fun i => b * 2 ^ (attempt + i)) ∧
      (∀ i, i + 1 < (genLoop oracle maxR b attempt).attempts →
        retryableOutcome (oracle (attempt + i)) = true ∧ attempt + i < maxR) ∧
      (attempt + (genLoop oracle maxR b attempt).attempts ≤ maxR →
        retryableOutcome (oracle (attempt + (genLoop oracle maxR b attempt).attempts - 1)) = false) := by
  intro fuel
  induction fuel with
  | zero =>
    intro attempt hle hfuel
    have heq : attempt = maxR := by omega
    rcases ho : oracle attempt with ⟨status, body, payload⟩ | msg
    · by_cases h400 : 400 ≤ status
      · have hnr : ¬ (((status == 429 || status == 500) && decide (attempt < maxR)) = true) := by
          simp [heq]
        rw [genLoop_step_fail oracle maxR b attempt status body payload ho h400 hnr]
        refine ⟨le_refl 1, ?_, by simp, ?_, ?_⟩
        · show (1 : Nat) ≤ maxR + 1 - attempt
          omega
        · intro i hi
          exact absurd (show i + 1 < 1 from hi) (by omega)
        · intro hstop
          exact absurd (show attempt + 1 ≤ maxR from hstop) (by omega)
      · rw [genLoop_step_ok oracle maxR b attempt status body payload ho h400]
        refine ⟨le_refl 1, ?_, by simp, ?_, ?_⟩
        · show (1 : Nat) ≤ maxR + 1 - attempt
          omega
        · intro i hi
          exact absurd (show i + 1 < 1 from hi) (by omega)
        · intro hstop
          show retryableOutcome (oracle attempt) = false
          rw [ho]
          simp [retryableOutcome, h400]
    · have hnr : ¬ attempt < maxR := by omega
      rw [genLoop_step_noconn oracle maxR b attempt msg ho hnr]
      refine ⟨le_refl 1, ?_, by simp, ?_, ?_⟩
      · show (1 : Nat) ≤ maxR + 1 - attempt
        omega
      · intro i hi
        exact absurd (show i + 1 < 1 from hi) (by omega)
      · intro hstop
        exact absurd (show attempt + 1 ≤ maxR from hstop) (by omega)
  | succ n ih =>
    intro attempt hle hfuel
    rcases ho : oracle attempt with ⟨status, body, payload⟩ | msg
    · by_cases h400 : 400 ≤ status
      · by_cases hr : (((status == 429 || status == 500) && decide (attempt < maxR))) = true
        · have hparts : (status == 429 || status == 500) = true ∧ attempt < maxR := by
            simpa using hr
          have hlt : attempt < maxR := hparts.2
          obtain ⟨ih1, ih2, ih3, ih4, ih5⟩ := ih (attempt + 1) (by omega) (by omega)
          rw [genLoop_step_retry oracle maxR b attempt status body payload ho h400 hr]
          refine ⟨?_, ?_, ?_, ?_, ?_⟩
          · show 1 ≤ (genLoop oracle maxR b (attempt + 1)).attempts + 1
            omega
          · show (genLoop oracle maxR b (attempt + 1)).attempts + 1 ≤ maxR + 1 - attempt
            omega
          · show b * 2 ^ attempt :: (genLoop oracle maxR b (attempt + 1)).delays =
              (List.range ((genLoop oracle maxR b (attempt + 1)).attempts + 1 - 1)).map
                (fun i => b * 2 ^ (attempt + i))
            rw [Nat.add_sub_cancel, ih3]
            have hk : (genLoop oracle maxR b (attempt + 1)).attempts =
                ((genLoop oracle maxR b (attempt + 1)).attempts - 1) + 1 := by omega
            conv_rhs => rw [hk, List.range_succ_eq_map]
            simp only [List.map_cons, List.map_map]
            have htail : List.map (fun i => b * 2 ^ (attempt + 1 + i))
                (List.range ((genLoop oracle maxR b (attempt + 1)).attempts - 1)) =
              List.map ((fun i => b * 2 ^ (attempt + i)) ∘ Nat.succ)
                (List.range ((genLoop oracle maxR b (attempt + 1)).attempts - 1)) := by
              apply List.map_congr_left
              intro a ha
              simp only [Function.comp_apply]
              have hx : attempt + 1 + a = attempt + (a + 1) := by omega
              rw [hx]
            rw [htail]
            simp
          · intro i hi
            have hi2 : i + 1 < (genLoop oracle maxR b (attempt + 1)).attempts + 1 := hi
            rcases i with _ | j
            · refine ⟨?_, hlt⟩
              show retryableOutcome (oracle attempt) = true
              rw [ho]
              simp only [retryableOutcome, Bool.and_eq_true, decide_eq_true_eq]
              exact ⟨h400, hparts.1⟩
            · have hj : j + 1 < (genLoop oracle maxR b (attempt + 1)).attempts := by omega
              have hres := ih4 j hj
              have hidx : attempt + (j + 1) = attempt + 1 + j := by omega
              rw [hidx]
              exact hres
          · intro hstop
            have hstop1 : attempt + ((genLoop oracle maxR b (attempt + 1)).attempts + 1) ≤ maxR :=
              hstop
            have hstop2 : attempt + 1 + (genLoop oracle maxR b (attempt + 1)).attempts ≤ maxR := by
              omega
            show retryableOutcome
              (oracle (attempt + ((genLoop oracle maxR b (attempt + 1)).attempts + 1) - 1)) = false
            have hidx : attempt + ((genLoop oracle maxR b (attempt + 1)).attempts + 1) - 1 =
                attempt + 1 + (genLoop oracle maxR b (attempt + 1)).attempts - 1 := by omega
            rw [hidx]
            exact ih5 hstop2
        · rw [genLoop_step_fail oracle maxR b attempt status body payload ho h400 hr]
          refine ⟨le_refl 1, ?_, by simp, ?_, ?_⟩
          · show (1 : Nat) ≤ maxR + 1 - attempt
            omega
          · intro i hi
            exact absurd (show i + 1 < 1 from hi) (by omega)
          · intro hstop
            have hlt : attempt < maxR := show attempt + 1 ≤ maxR from hstop
            have hor : (status == 429 || status == 500) = false := by
              rcases hb : (status == 429 || status == 500) with _ | _
              · rfl
              · exact absurd (by simp [hb, hlt]) hr
            show retryableOutcome (oracle attempt) = false
            rw [ho]
            simp [retryableOutcome, hor]
      · rw [genLoop_step_ok oracle maxR b attempt status body payload ho h400]
        refine ⟨le_refl 1, ?_, by simp, ?_, ?_⟩
        · show (1 : Nat) ≤ maxR + 1 - attempt
          omega
        · intro i hi
          exact absurd (show i + 1 < 1 from hi) (by omega)
        · intro hstop
          show retryableOutcome (oracle attempt) = false
          rw [ho]
          simp [retryableOutcome, h400]
    · by_cases hr : attempt < maxR
      · obtain ⟨ih1, ih2, ih3, ih4, ih5⟩ := ih (attempt + 1) (by omega) (by omega)
        rw [genLoop_step_reconn oracle maxR b attempt msg ho hr]
        refine ⟨?_, ?_, ?_, ?_, ?_⟩
        · show 1 ≤ (genLoop oracle maxR b (attempt + 1)).attempts + 1
          omega
        · show (genLoop oracle maxR b (attempt + 1)).attempts + 1 ≤ maxR + 1 - attempt
          omega
        · show b * 2 ^ attempt :: (genLoop oracle maxR b (attempt + 1)).delays =
            (List.range ((genLoop oracle maxR b (attempt + 1)).attempts + 1 - 1)).map
              (fun i => b * 2 ^ (attempt + i))
          rw [Nat.add_sub_cancel, ih3]
          have hk : (genLoop oracle maxR b (attempt + 1)).attempts =
              ((genLoop oracle maxR b (attempt + 1)).attempts - 1) + 1 := by omega
          conv_rhs => rw [hk, List.range_succ_eq_map]
          simp only [List.map_cons, List.map_map]
          have htail : List.map (fun i => b * 2 ^ (attempt + 1 + i))
              (List.range ((genLoop oracle maxR b (attempt + 1)).attempts - 1)) =
            List.map ((fun i => b * 2 ^ (attempt + i)) ∘ Nat.succ)
              (List.range ((genLoop oracle maxR b (attempt + 1)).attempts - 1)) := by
            apply List.map_congr_left
            intro a ha
            simp only [Function.comp_apply]
            have hx : attempt + 1 + a = attempt + (a + 1) := by omega
            rw [hx]
          rw [htail]
          simp
        · intro i hi
          have hi2 : i + 1 < (genLoop oracle maxR b (attempt + 1)).attempts + 1 := hi
          rcases i with _ | j
          · refine ⟨?_, hr⟩
            show retryableOutcome (oracle attempt) = true
            rw [ho]
            rfl
          · have hj : j + 1 < (genLoop oracle maxR b (attempt + 1)).attempts := by omega
            have hres := ih4 j hj
            have hidx : attempt + (j + 1) = attempt + 1 + j := by omega
            rw [hidx]
            exact hres
        · intro hstop
          have hstop1 : attempt + ((genLoop oracle maxR b (attempt + 1)).attempts + 1) ≤ maxR :=
            hstop
          have hstop2 : attempt + 1 + (genLoop oracle maxR b (attempt + 1)).attempts ≤ maxR := by
            omega
          show retryableOutcome
            (oracle (attempt + ((genLoop oracle maxR b (attempt + 1)).attempts + 1) - 1)) = false
          have hidx : attempt + ((genLoop oracle maxR b (attempt + 1)).attempts + 1) - 1 =
              attempt + 1 + (genLoop oracle maxR b (attempt + 1)).attempts - 1 := by omega
          rw [hidx]
          exact ih5 hstop2
      · rw [genLoop_step_noconn oracle maxR b attempt msg ho hr]
        refine ⟨le_refl 1, ?_, by simp, ?_, ?_⟩
        · show (1 : Nat) ≤ maxR + 1 - attempt
          omega
        · intro i hi
          exact absurd (show i + 1 < 1 from hi) (by omega)
        · intro hstop
          exact absurd (show attempt + 1 ≤ maxR from hstop) hr

/-- C3: `AIClient.generate_response` makes at most `maxRetries + 1` HTTP
attempts; the sleep before retried attempt `i+1` is exactly
`retry_backoff * 2 ^ i`; every retry happens on (and only on) HTTP 429 or
500 or a transport error with attempts remaining; and any other HTTP
status `>= 400` (e.g. 400) fails immediately — one attempt, no sleeps —
with an `APIError` carrying the status code and the raw body text,
regardless of `maxRetries`. -/
theorem generate_response_retry_policy (oracle : Nat → AttemptOutcome)
    (maxRetries : Nat) (backoff : ℚ) (model : String) :
    (1 ≤ (generate_response oracle maxRetries backoff model).attempts ∧
      (generate_response oracle maxRetries backoff model).attempts ≤ maxRetries + 1) ∧
    (generate_response oracle maxRetries backoff model).delays =
      (List.range ((generate_response oracle maxRetries backoff model).attempts - 1)).map
        (fun i => backoff * 2 ^ i) ∧
    (∀ i, i + 1 < (generate_response oracle maxRetries backoff model).attempts →
      retryableOutcome (oracle i) = true ∧ i < maxRetries) ∧
    ((generate_response oracle maxRetries backoff model).attempts ≤ maxRetries →
      retryableOutcome
        (oracle ((generate_response oracle maxRetries backoff model).attempts - 1)) = false) ∧
    (∀ status body payload, oracle 0 = .response status body payload → 400 ≤ status →
      status ≠ 429 → status ≠ 500 →
      generate_response oracle maxRetries backoff model =
        { result := .error { message := mkApiMsg status body, status_code := some status },
          attempts := 1, delays := [] }) := by
  obtain ⟨h1, h2, h3, h4, h5⟩ :=
    genLoop_spec oracle maxRetries backoff maxRetries 0 (Nat.zero_le _) (by omega)
  have hattempts : (generate_response oracle maxRetries backoff model).attempts =
      (genLoop oracle maxRetries backoff 0).attempts := rfl
  have hdelays : (generate_response oracle maxRetries backoff model).delays =
      (genLoop oracle maxRetries backoff 0).delays := rfl
  refine ⟨⟨?_, ?_⟩, ?_, ?_, ?_, ?_⟩
  · rw [hattempts]
    exact h1
  · rw [hattempts]
    exact h2
  · rw [hdelays, hattempts, h3]
    apply List.map_congr_left
    intro a ha
    simp
  · intro i hi
    rw [hattempts] at hi
    have hres := h4 i hi
    simpa using hres
  · intro hstop
    rw [hattempts] at hstop ⊢
    have hres := h5 (by omega)
    simpa using hres
  · intro status body payload ho h400 h429 h500
    have hnr : ¬ (((status == 429 || status == 500) && decide (0 < maxRetries)) = true) := by
      simp [h429, h500]
    have hstep := genLoop_step_fail oracle maxRetries backoff 0 status body payload ho h400 hnr
    simp only [generate_response, hstep]
    rfl

/-- C3 witness: the non-retryable component applied to an upstream that
always answers HTTP 400 — one attempt and no sleeps even with
`maxRetries = 5`. -/
theorem generate_response_retry_policy_witness :
    generate_response (fun _ => .response 400 "Bad Request" .null) 5 1 "gpt-4o" =
      { result := .error { message := mkApiMsg 400 "Bad Request", status_code := some 400 },
        attempts := 1, delays := [] } :=
  (generate_response_retry_policy (fun _ => .response 400 "Bad Request" .null)
    5 1 "gpt-4o").2.2.2.2 400 "Bad Request" .null rfl (by omega) (by decide) (by decide)

end Xilma